import Mathlib

/-!
Verification of the static asset server in `src/server.py`.

The script configures Python's standard-library HTTP server with a handler
subclass that appends three CORS headers to every response, changes the
working directory to the script's own directory, binds TCP port 3000 on all
interfaces, prints five diagnostic lines, opens a browser and serves until a
keyboard interrupt arrives.

We embed the script shallowly: the header machinery of the handler becomes a
state-passing function, the static-file semantics of the standard library
handler (which is not part of the repository) is modelled from the spec, and
the `main` routine becomes a function from a run configuration (script
directory, command-line arguments, environment, whether `chdir` and the bind
succeed, and where—if anywhere—a keyboard interrupt arrives) to the trace of
side effects it performs together with the run's outcome.
-/

namespace GovHtml

/-- A response header: field name and value. -/
abbrev Header := String × String

/-- `PORT = 3000` (src/server.py line 14). -/
def PORT : Nat := 3000

/-- The three CORS headers appended by the handler (src/server.py lines 19-21),
in the order the source sends them. -/
def corsHeaders : List Header :=
  [("Access-Control-Allow-Origin", "*"),
   ("Access-Control-Allow-Methods", "GET, POST, OPTIONS"),
   ("Access-Control-Allow-Headers", "Content-Type")]

/-- The header-buffer state of a request handler while a response is being
built: `buffered` holds headers passed to `send_header` but not yet flushed,
`sent` holds the header block once it has been sent to the client. -/
structure HandlerState where
  buffered : List Header
  sent : Option (List Header)
deriving DecidableEq

/-- `send_header` of the standard library handler: appends one header to the
internal buffer (it does not send anything by itself). -/
def send_header (s : HandlerState) (keyword value : String) : HandlerState :=
  { s with buffered := s.buffered ++ [(keyword, value)] }

/-- Modelled from the spec: `BaseHTTPRequestHandler.end_headers` (Python
standard library, not part of src/) flushes the buffered header block to the
client. -/
def base_end_headers (s : HandlerState) : HandlerState :=
  { buffered := [], sent := some s.buffered }

/-- `CustomHTTPRequestHandler.end_headers` (src/server.py lines 17-22): sends
the three CORS headers, then delegates to the superclass to flush the block. -/
def end_headers (s : HandlerState) : HandlerState :=
  base_end_headers
    (send_header
      (send_header (send_header s "Access-Control-Allow-Origin" "*")
        "Access-Control-Allow-Methods" "GET, POST, OPTIONS")
      "Access-Control-Allow-Headers" "Content-Type")

/-- A filesystem snapshot of the serving directory: an association list from
request path to file contents. -/
structure FileSystem where
  files : List (String × String)
deriving DecidableEq

/-- Modelled from the spec: path resolution of the standard library static
handler (not part of src/) — the request path maps directly to a file under
the serving directory, and a directory path falls back to its index file. -/
def resolve (fs : FileSystem) (path : String) : Option String :=
  match fs.files.lookup path with
  | some contents => some contents
  | none => fs.files.lookup (path ++ "index.html")

/-- An HTTP response: status code, the header block as sent, and the body. -/
structure Response where
  status : Nat
  headers : List Header
  body : String
deriving DecidableEq

/-- Modelled from the spec: the content type inferred from the path by the
standard library handler. The claims do not depend on the inference table, so
only its presence is modelled. -/
def contentTypeOf (path : String) : String :=
  if path.endsWith ".html" ∨ path.endsWith "/" then "text/html"
  else if path.endsWith ".js" then "text/javascript"
  else if path.endsWith ".css" then "text/css"
  else "application/octet-stream"

/-- The header block of a response whose pre-CORS headers are `base`: every
response's headers pass through `end_headers` before being sent, so the block
actually sent is whatever `end_headers` flushes. -/
def sentHeaders (base : List Header) : List Header :=
  (end_headers { buffered := base, sent := none }).sent.getD []

/-- Modelled from the spec: the standard library static-file semantics (not
part of src/) — a request path that resolves to a file is answered 200 with
the file's on-disk contents, any other path is answered 404; the header block
of either response is emitted through the handler's `end_headers`. The method
is accepted as an argument but the static semantics do not depend on it. -/
def handleRequest (fs : FileSystem) (method path : String) : Response :=
  match resolve fs path with
  | some contents =>
      { status := 200
        headers := sentHeaders [("Content-Type", contentTypeOf path)]
        body := contents }
  | none =>
      { status := 404
        headers := sentHeaders [("Content-Type", "text/html")]
        body := "File not found" }

/-- One observable side effect of the main routine. -/
inductive Event where
  | chdir (dir : String)
  | bind (host : String) (port : Nat)
  | println (line : String)
  | openBrowser (url : String)
  | serveForever
  | closeSocket
deriving DecidableEq

/-- How a run of the main routine ends. -/
inductive Outcome where
  | cleanExit (code : Nat)
  | unhandledError
  | runningForever
deriving DecidableEq

/-- Modelled from the spec: the process exit status each outcome produces —
`sys.exit code` exits with `code`, an unhandled error terminates with the
runtime's default non-zero status (CPython uses 1), and a run still blocked in
the serve loop has no exit status. -/
def exitCode : Outcome → Option Nat
  | .cleanExit code => some code
  | .unhandledError => some 1
  | .runningForever => none

/-- Where a keyboard interrupt arrives, when one arrives at all:
`duringStartup k` means it arrives after the socket bind, once `k` of the
startup steps (five prints, then the browser launch) have completed but before
the serve loop is entered; `duringServe` means it arrives inside
`serve_forever`. -/
inductive InterruptPoint where
  | duringStartup (k : Nat)
  | duringServe
deriving DecidableEq

/-- A run configuration: everything outside the script that can influence a
run. `args` and `env` are the command-line arguments and the process
environment; the script reads neither, and the embedding records that by
taking them as inputs that the definition of `main` never consults. -/
structure RunConfig where
  scriptDir : String
  args : List String
  env : List (String × String)
  chdirOk : Bool
  bindOk : Bool
  interrupt : Option InterruptPoint
deriving DecidableEq

/-- The root URL the script prints and opens (src/server.py lines 30 and 36). -/
def rootUrl : String := "http://localhost:" ++ toString PORT

/-- The five diagnostic lines printed at startup (src/server.py lines 29-33),
given the working directory after the `chdir`. -/
def startupLines (cwd : String) : List String :=
  ["🚀 AP Government Quiz Tool Server",
   "📍 Serving at: " ++ rootUrl,
   "📁 Directory: " ++ cwd,
   "🌐 Opening browser...",
   "⏹️  Press Ctrl+C to stop the server"]

/-- The stop notice printed on a keyboard interrupt (src/server.py line 41). -/
def stopMessage : String := "\n🛑 Server stopped"

/-- The startup steps between the bind and the serve loop: the five prints,
then the browser launch (src/server.py lines 29-36). -/
def startupEvents (cwd : String) : List Event :=
  (startupLines cwd).map Event.println ++ [Event.openBrowser rootUrl]

/-- The `main` routine (src/server.py lines 24-42) as a trace semantics:
`chdir` to the script's directory, attempt the bind, and — when the bind
succeeds — run the startup steps, enter the serve loop, and react to a
keyboard interrupt. Only an interrupt inside `serve_forever` is caught (the
`try` wraps nothing else); it prints the stop notice and exits 0, and the
`with` statement closes the socket on every exit path that leaves the block. -/
def main (c : RunConfig) : List Event × Outcome :=
  match c.chdirOk with
  | false => ([], .unhandledError)
  | true =>
    let t0 := [Event.chdir c.scriptDir, Event.bind "" PORT]
    match c.bindOk with
    | false => (t0, .unhandledError)
    | true =>
      match c.interrupt with
      | some (.duringStartup k) =>
          (t0 ++ (startupEvents c.scriptDir).take k ++ [Event.closeSocket],
           .unhandledError)
      | some .duringServe =>
          (t0 ++ startupEvents c.scriptDir ++
            [Event.serveForever, Event.println stopMessage, Event.closeSocket],
           .cleanExit 0)
      | none =>
          (t0 ++ startupEvents c.scriptDir ++ [Event.serveForever],
           .runningForever)

/-- Recognizes a `chdir` event. -/
def isChdir : Event → Bool
  | .chdir _ => true
  | _ => false

/-- Recognizes a `bind` event. -/
def isBind : Event → Bool
  | .bind _ _ => true
  | _ => false

/-- A sample run configuration used by the witnesses. -/
def sampleConfig : RunConfig :=
  { scriptDir := "/srv/gov-html"
    args := []
    env := []
    chdirOk := true
    bindOk := true
    interrupt := none }

/-- The stop notice differs from every startup line, whatever the working
directory: the first characters already disagree. -/
theorem stopMessage_not_startup (cwd : String) :
    stopMessage ∉ startupLines cwd := by
  intro h
  have hhead : ∀ l ∈ startupLines cwd, l.data.head? ≠ stopMessage.data.head? := by
    intro l hl
    simp only [startupLines, List.mem_cons, List.mem_singleton] at hl
    rcases hl with rfl | rfl | rfl | rfl | rfl | h
    · decide
    · rw [String.data_append]; decide
    · rw [String.data_append]
      intro hc
      rw [List.head?_append_of_ne_nil _ (by decide)] at hc
      revert hc; decide
    · decide
    · decide
    · cases h
  exact hhead stopMessage h rfl

/-- A `println` event in the startup steps carries one of the startup lines. -/
theorem println_mem_startupEvents {line d : String}
    (h : Event.println line ∈ startupEvents d) : line ∈ startupLines d := by
  simpa [startupEvents] using h

/-- A filter that is empty on a list is empty on every prefix of it. -/
theorem filter_take_eq_nil {p : Event → Bool} {l : List Event}
    (h : l.filter p = []) (k : Nat) : (l.take k).filter p = [] :=
  List.sublist_nil.mp (h ▸ (List.take_sublist k l).filter p)

/-- C1: for every response, whatever headers were buffered and whatever the
request method or path, `end_headers` appends exactly the three CORS headers
to the header block before it is sent, and every header block a response
carries is of that shape. -/
theorem c1_cors_headers_appended :
    (∀ s : HandlerState, (end_headers s).sent = some (s.buffered ++ corsHeaders)) ∧
    (∀ (fs : FileSystem) (method path : String),
      ∃ base, (handleRequest fs method path).headers = base ++ corsHeaders) := by
  constructor
  · intro s
    simp [end_headers, base_end_headers, send_header, corsHeaders]
  · intro fs method path
    unfold handleRequest
    cases resolve fs path with
    | some contents =>
        exact ⟨[("Content-Type", contentTypeOf path)],
          by simp [sentHeaders, end_headers, base_end_headers, send_header, corsHeaders]⟩
    | none =>
        exact ⟨[("Content-Type", "text/html")],
          by simp [sentHeaders, end_headers, base_end_headers, send_header, corsHeaders]⟩

/-- C2: a request whose path resolves to a file is answered 200 with the
file's contents as body; a request whose path resolves to neither a file nor
an index is answered 404. -/
theorem c2_static_file_semantics (fs : FileSystem) (method path : String) :
    (∀ contents, resolve fs path = some contents →
      (handleRequest fs method path).status = 200 ∧
      (handleRequest fs method path).body = contents) ∧
    (resolve fs path = none → (handleRequest fs method path).status = 404) := by
  constructor
  · intro contents h
    simp [handleRequest, h]
  · intro h
    simp [handleRequest, h]

/-- A filesystem snapshot used by the witnesses. -/
def sampleFs : FileSystem := ⟨[("/index.html", "quiz page")]⟩

/-- Witness for C2: on a concrete filesystem, the root path resolves through
the index file and is answered 200 with its contents, and a missing path is
answered 404. -/
theorem c2_witness :
    ((handleRequest sampleFs "GET" "/").status = 200 ∧
      (handleRequest sampleFs "GET" "/").body = "quiz page") ∧
    (handleRequest sampleFs "GET" "/missing.txt").status = 404 :=
  ⟨(c2_static_file_semantics sampleFs "GET" "/").1 "quiz page" (by decide),
   (c2_static_file_semantics sampleFs "GET" "/missing.txt").2 (by decide)⟩

/-- C3: a keyboard interrupt inside the serve loop produces a clean shutdown:
the run ends with exit code 0, the stop notice is printed, and the listening
socket is closed. -/
theorem c3_interrupt_clean_shutdown (c : RunConfig)
    (hc : c.chdirOk = true) (hb : c.bindOk = true)
    (hi : c.interrupt = some InterruptPoint.duringServe) :
    (main c).2 = Outcome.cleanExit 0 ∧
    exitCode (main c).2 = some 0 ∧
    Event.println stopMessage ∈ (main c).1 ∧
    Event.closeSocket ∈ (main c).1 := by
  refine ⟨?_, ?_, ?_, ?_⟩ <;>
    simp [main, hc, hb, hi, exitCode]

/-- Witness for C3 at a concrete configuration. -/
theorem c3_witness :
    (main { sampleConfig with interrupt := some InterruptPoint.duringServe }).2
        = Outcome.cleanExit 0 ∧
    exitCode (main { sampleConfig with
        interrupt := some InterruptPoint.duringServe }).2 = some 0 ∧
    Event.println stopMessage ∈
      (main { sampleConfig with interrupt := some InterruptPoint.duringServe }).1 ∧
    Event.closeSocket ∈
      (main { sampleConfig with interrupt := some InterruptPoint.duringServe }).1 :=
  c3_interrupt_clean_shutdown _ rfl rfl rfl

/-- C4: when the bind fails (port already in use), the run ends as an
unhandled error with a non-zero exit, nothing is printed, and exactly one bind
is ever attempted — at the fixed port, with no retry and no fallback. -/
theorem c4_port_in_use (c : RunConfig)
    (hc : c.chdirOk = true) (hb : c.bindOk = false) :
    (main c).2 = Outcome.unhandledError ∧
    exitCode (main c).2 ≠ some 0 ∧
    (∀ line, Event.println line ∉ (main c).1) ∧
    (main c).1.filter isBind = [Event.bind "" PORT] := by
  refine ⟨?_, ?_, ?_, ?_⟩ <;>
    simp [main, hc, hb, exitCode, isBind]

/-- Witness for C4 at a concrete configuration. -/
theorem c4_witness :
    (main { sampleConfig with bindOk := false }).2 = Outcome.unhandledError ∧
    exitCode (main { sampleConfig with bindOk := false }).2 ≠ some 0 ∧
    (∀ line, Event.println line ∉ (main { sampleConfig with bindOk := false }).1) ∧
    (main { sampleConfig with bindOk := false }).1.filter isBind
        = [Event.bind "" PORT] :=
  c4_port_in_use _ rfl rfl

/-- C5: every run that reaches the serve loop — whether it is never
interrupted or interrupted later, during serving — performs its side effects
in this fixed order: change directory, bind the socket, print the five
diagnostic lines, launch the browser, enter the serve loop; anything further
in the trace comes after that whole prefix. -/
theorem c5_startup_order (c : RunConfig)
    (hc : c.chdirOk = true) (hb : c.bindOk = true)
    (hi : c.interrupt = none ∨ c.interrupt = some InterruptPoint.duringServe) :
    ∃ rest, (main c).1 =
      [Event.chdir c.scriptDir,
       Event.bind "" PORT,
       Event.println "🚀 AP Government Quiz Tool Server",
       Event.println ("📍 Serving at: " ++ rootUrl),
       Event.println ("📁 Directory: " ++ c.scriptDir),
       Event.println "🌐 Opening browser...",
       Event.println "⏹️  Press Ctrl+C to stop the server",
       Event.openBrowser rootUrl,
       Event.serveForever] ++ rest := by
  rcases hi with hi | hi
  · exact ⟨[], by simp [main, hc, hb, hi, startupEvents, startupLines]⟩
  · exact ⟨[Event.println stopMessage, Event.closeSocket],
      by simp [main, hc, hb, hi, startupEvents, startupLines]⟩

/-- Witness for C5 at a concrete configuration. -/
theorem c5_witness :
    ∃ rest, (main sampleConfig).1 =
      [Event.chdir "/srv/gov-html",
       Event.bind "" PORT,
       Event.println "🚀 AP Government Quiz Tool Server",
       Event.println ("📍 Serving at: " ++ rootUrl),
       Event.println ("📁 Directory: " ++ "/srv/gov-html"),
       Event.println "🌐 Opening browser...",
       Event.println "⏹️  Press Ctrl+C to stop the server",
       Event.openBrowser rootUrl,
       Event.serveForever] ++ rest :=
  c5_startup_order sampleConfig rfl rfl (Or.inl rfl)

/-- C6: on every run that reaches the serve loop, the browser launch occurs
strictly before the serve loop is entered — the trace splits around the
browser-launch event followed immediately by the serve-loop event, and the
serve loop does not occur before that point. -/
theorem c6_browser_before_serving (c : RunConfig)
    (hc : c.chdirOk = true) (hb : c.bindOk = true)
    (hi : c.interrupt = none ∨ c.interrupt = some InterruptPoint.duringServe) :
    ∃ pre post,
      (main c).1 = pre ++ Event.openBrowser rootUrl :: Event.serveForever :: post ∧
      Event.serveForever ∉ pre := by
  rcases hi with hi | hi
  · refine ⟨[Event.chdir c.scriptDir, Event.bind "" PORT] ++
      (startupLines c.scriptDir).map Event.println, [], ?_, ?_⟩
    · simp [main, hc, hb, hi, startupEvents]
    · simp [startupLines]
  · refine ⟨[Event.chdir c.scriptDir, Event.bind "" PORT] ++
      (startupLines c.scriptDir).map Event.println,
      [Event.println stopMessage, Event.closeSocket], ?_, ?_⟩
    · simp [main, hc, hb, hi, startupEvents]
    · simp [startupLines]

/-- Witness for C6 at a concrete configuration. -/
theorem c6_witness :
    ∃ pre post,
      (main sampleConfig).1
          = pre ++ Event.openBrowser rootUrl :: Event.serveForever :: post ∧
      Event.serveForever ∉ pre :=
  c6_browser_before_serving sampleConfig rfl rfl (Or.inl rfl)

/-- C7: the fixed port is 3000; every run whose directory change succeeds
attempts exactly one bind, on all interfaces (empty host) at port 3000; and
the run is entirely independent of the command-line arguments. -/
theorem c7_fixed_port_no_config :
    PORT = 3000 ∧
    (∀ c : RunConfig, c.chdirOk = true →
      (main c).1.filter isBind = [Event.bind "" 3000]) ∧
    (∀ (c : RunConfig) (a₁ a₂ : List String),
      main { c with args := a₁ } = main { c with args := a₂ }) := by
  refine ⟨rfl, ?_, ?_⟩
  · intro c hc
    have hstart : ∀ d : String, (startupEvents d).filter isBind = [] := by
      intro d
      simp [startupEvents, startupLines, isBind]
    cases hb : c.bindOk
    · simp [main, hc, hb, isBind, PORT]
    · rcases hi : c.interrupt with _ | ip
      · simp [main, hc, hb, hi, isBind, PORT, hstart c.scriptDir]
      · cases ip with
        | duringStartup k =>
            simp [main, hc, hb, hi, isBind, PORT,
              filter_take_eq_nil (hstart c.scriptDir) k]
        | duringServe =>
            simp [main, hc, hb, hi, isBind, PORT, hstart c.scriptDir]
  · intro c a₁ a₂
    rfl

/-- Witness for C7 at a concrete configuration. -/
theorem c7_witness :
    (main sampleConfig).1.filter isBind = [Event.bind "" 3000] :=
  c7_fixed_port_no_config.2.1 sampleConfig rfl

/-- C8: the program consults no environment variables — two runs that differ
only in the process environment have identical traces (all printed output,
all responses served) and identical outcomes (exit status). -/
theorem c8_env_independent (c : RunConfig) (e₁ e₂ : List (String × String)) :
    main { c with env := e₁ } = main { c with env := e₂ } := rfl

/-- C9: when the directory change succeeds it is the very first side effect
of the run — before the bind and the serve loop — it targets the script's own
directory, and it is the only directory change in the whole run; when it
fails, the run ends immediately as an unhandled error with no side effects. -/
theorem c9_chdir_once_first (c : RunConfig) :
    (c.chdirOk = true →
      (main c).1.head? = some (Event.chdir c.scriptDir) ∧
      (main c).1.filter isChdir = [Event.chdir c.scriptDir]) ∧
    (c.chdirOk = false → main c = ([], Outcome.unhandledError)) := by
  constructor
  · intro hc
    have hstart : ∀ d : String, (startupEvents d).filter isChdir = [] := by
      intro d
      simp [startupEvents, startupLines, isChdir]
    cases hb : c.bindOk
    · simp [main, hc, hb, isChdir]
    · rcases hi : c.interrupt with _ | ip
      · simp [main, hc, hb, hi, isChdir, hstart c.scriptDir]
      · cases ip with
        | duringStartup k =>
            simp [main, hc, hb, hi, isChdir,
              filter_take_eq_nil (hstart c.scriptDir) k]
        | duringServe =>
            simp [main, hc, hb, hi, isChdir, hstart c.scriptDir]
  · intro hc
    simp [main, hc]

/-- Witness for C9 at concrete configurations for both cases. -/
theorem c9_witness :
    ((main sampleConfig).1.head? = some (Event.chdir "/srv/gov-html") ∧
      (main sampleConfig).1.filter isChdir = [Event.chdir "/srv/gov-html"]) ∧
    main { sampleConfig with chdirOk := false } = ([], Outcome.unhandledError) :=
  ⟨(c9_chdir_once_first sampleConfig).1 rfl,
   (c9_chdir_once_first { sampleConfig with chdirOk := false }).2 rfl⟩

/-- C10: a keyboard interrupt arriving after the bind but before the serve
loop (after any number of completed startup steps) is not caught: the run ends
as an unhandled error, its exit status is not 0, and the shutdown message is
never printed. -/
theorem c10_startup_interrupt_unhandled (c : RunConfig) (k : Nat)
    (hc : c.chdirOk = true) (hb : c.bindOk = true)
    (hi : c.interrupt = some (InterruptPoint.duringStartup k)) :
    (main c).2 = Outcome.unhandledError ∧
    exitCode (main c).2 ≠ some 0 ∧
    Event.println stopMessage ∉ (main c).1 := by
  refine ⟨by simp [main, hc, hb, hi], by simp [main, hc, hb, hi, exitCode], ?_⟩
  intro hmem
  simp [main, hc, hb, hi] at hmem
  have h2 : Event.println stopMessage ∈ startupEvents c.scriptDir :=
    (List.take_sublist k _).subset hmem
  exact stopMessage_not_startup c.scriptDir (println_mem_startupEvents h2)

/-- Witness for C10 at a concrete configuration with three startup steps
completed before the interrupt. -/
theorem c10_witness :
    (main { sampleConfig with
        interrupt := some (InterruptPoint.duringStartup 3) }).2
        = Outcome.unhandledError ∧
    exitCode (main { sampleConfig with
        interrupt := some (InterruptPoint.duringStartup 3) }).2 ≠ some 0 ∧
    Event.println stopMessage ∉
      (main { sampleConfig with
        interrupt := some (InterruptPoint.duringStartup 3) }).1 :=
  c10_startup_interrupt_unhandled _ 3 rfl rfl rfl

end GovHtml
